import Mathlib

/-!
Shallow embedding of the domain-messages message classes (Offer, Request,
ResourceForecastPower) together with the slice of their collaborator interface
that the verified properties need. Numeric values are modelled as rationals:
every input exercised here is a small decimal literal on which Python float
arithmetic is exact. Definitions named after Python methods drop the leading
underscore of the source name.
-/

namespace DomainMessages

/-- A quantity: a numeric value bound to a unit of measure. -/
structure QuantityBlock where
  value : ℚ
  unit_of_measure : String
deriving DecidableEq

/-- An ordered sequence of numeric values sharing one unit of measure. -/
structure ValueArrayBlock where
  values : List ℚ
  unit_of_measure : String
deriving DecidableEq

/-- A time index paired with named value arrays, the mapping kept as an
insertion-ordered association list. -/
structure TimeSeriesBlock where
  time_index : List String
  series : List (String × ValueArrayBlock)
deriving DecidableEq

/-- Scalar element shapes that can occur inside a customer-ids list input. -/
inductive PyElem where
  | eStr (s : String)
  | eInt (n : Int)
  | eNone
deriving DecidableEq

/-- Python-like values appearing as raw setter or JSON field inputs. -/
inductive PyVal where
  | vNone
  | vBool (b : Bool)
  | vInt (n : Int)
  | vFloat (q : ℚ)
  | vStr (s : String)
  | vList (xs : List PyElem)
  | vTuple (xs : List PyElem)
  | vQB (value : ℚ) (unit_of_measure : String)
deriving DecidableEq

/-- Outcome of calling a validating setter: a stored value, a raised
MessageValueError, or a raised builtin error that escaped the setter. -/
inductive PyOutcome (α : Type) where
  | ok (a : α)
  | msgValueError
  | builtinError (e : String)
deriving DecidableEq

/-- Errors that abort message construction. -/
inductive MessageError where
  | typeError
  | dateError
  | valueError
deriving DecidableEq

/-- Numeric value of a decimal digit character, none for other characters. -/
def charDigit (c : Char) : Option Nat :=
  if 48 ≤ c.toNat ∧ c.toNat ≤ 57 then some (c.toNat - 48) else none

/-- Value of a nonempty all-digit character list. -/
def digitsValAux : List Char → Nat → Option Nat
  | [], acc => some acc
  | c :: cs, acc =>
    match charDigit c with
    | some d => digitsValAux cs (acc * 10 + d)
    | none => none

/-- Value of a nonempty all-digit character list, none otherwise. -/
def digitsVal : List Char → Option Nat
  | [] => none
  | cs => digitsValAux cs 0

/-- Split a character list at the first dot character. -/
def splitDot : List Char → List Char × Option (List Char)
  | [] => ([], none)
  | c :: rest =>
    if c = '.' then ([], some rest)
    else
      let p := splitDot rest
      (c :: p.1, p.2)

/-- Unsigned decimal literal: digits with an optional fractional part. -/
def parseUnsigned (cs : List Char) : Option ℚ :=
  match splitDot cs with
  | (ip, none) => (digitsVal ip).map (fun n => (n : ℚ))
  | (ip, some fp) =>
    match digitsVal ip, digitsVal fp with
    | some i, some f => some ((i : ℚ) + (f : ℚ) / (10 : ℚ) ^ fp.length)
    | _, _ => none

/-- Model of the Python float builtin on strings, for plain decimal literals
with an optional sign. Strings that are not plain decimal literals yield none,
standing for the builtin ValueError that float raises on them. -/
def parseFloat (s : String) : Option ℚ :=
  match s.data with
  | c :: cs =>
    if c = '-' then (parseUnsigned cs).map (fun q => -q)
    else if c = '+' then parseUnsigned cs
    else parseUnsigned (c :: cs)
  | [] => none

/-- Model of the Python int builtin on strings: an optional sign followed by
digits only; none stands for the builtin ValueError raised otherwise. -/
def parseIntStr (s : String) : Option Int :=
  match s.data with
  | c :: cs =>
    if c = '-' then (digitsVal cs).map (fun n => -(n : Int))
    else if c = '+' then (digitsVal cs).map (fun n => (n : Int))
    else (digitsVal (c :: cs)).map (fun n => (n : Int))
  | [] => none

/-- Python float coercion of an already-validated numeric input. -/
def pyFloat (v : PyVal) : ℚ :=
  match v with
  | .vBool b => if b then 1 else 0
  | .vInt n => (n : ℚ)
  | .vFloat q => q
  | .vStr s => (parseFloat s).getD 0
  | .vQB value _ => value
  | _ => 0

/-- Python int coercion of an already-validated numeric input; division by the
denominator truncates exactly because validated inputs are integral. -/
def pyInt (v : PyVal) : Int :=
  match v with
  | .vBool b => if b then 1 else 0
  | .vInt n => n
  | .vFloat q => q.num / (q.den : Int)
  | .vStr s => (parseIntStr s).getD 0
  | _ => 0

/-- The string held by a string-shaped input. -/
def pyStrVal : PyVal → String
  | .vStr s => s
  | _ => ""

/-- Whether the input is a Python str instance. -/
def isVStr : PyVal → Bool
  | .vStr _ => true
  | _ => false

/-- Whether a list element is a Python str instance. -/
def isEStr : PyElem → Bool
  | .eStr _ => true
  | _ => false

/-- Nonnegativity predicate used by the quantity-typed fields. -/
def nonneg (x : ℚ) : Bool := decide (0 ≤ x)

/-- Modelled from the spec: the collaborator check for quantity-typed values
(missing here: tools.message.abstract check of quantity blocks). raw may be a
bare number, a numeric string, or an existing quantity; a quantity must carry
exactly the expected unit; the numeric predicate encodes the field range rule;
none is accepted only when allow_none holds. A Python bool passes the numeric
branch because bool is an int subtype. -/
def check_quantity_block (v : PyVal) (unit : String) (allowNone : Bool)
    (pred : ℚ → Bool) : Bool :=
  match v with
  | .vNone => allowNone
  | .vBool b => pred (if b then 1 else 0)
  | .vInt n => pred (n : ℚ)
  | .vFloat q => pred q
  | .vStr s =>
    match parseFloat s with
    | some q => pred q
    | none => false
  | .vQB value u => decide (u = unit) && pred value
  | _ => false

/-- Modelled from the spec: the collaborator setter helper for quantity-typed
attributes (missing here: tools.message.abstract). It stores the coerced value
as a quantity carrying the unit declared for the attribute in the schema
descriptor. -/
def set_quantity_block_value (declaredUnit : String) (v : PyVal) : QuantityBlock :=
  { value := pyFloat v, unit_of_measure := declaredUnit }

/-- Modelled from the spec: the collaborator check for time-series-typed values
on an already-built block (missing here: tools.message.abstract). It enforces
the structural invariant that every series length equals the time-index length
and then the message-type-specific block check. -/
def check_timeseries_block (b : TimeSeriesBlock)
    (blockCheck : TimeSeriesBlock → Bool) : Bool :=
  b.series.all (fun p => p.2.values.length == b.time_index.length) && blockCheck b

/-- Modelled from the spec: the collaborator datetime check (missing here:
generic datetime-string parsing utilities, out of scope for the core). The
model accepts exactly nonempty strings, standing for already-normalized
ISO-8601 datetime strings; the normalizer returns them unchanged. -/
def check_datetime (v : PyVal) : Bool :=
  match v with
  | .vStr s => s.length != 0
  | _ => false

/-- Modelled from the spec: the envelope fields owned by the external base
message collaborator (identifiers, epoch, lineage). -/
structure Envelope where
  simulation_id : String
  source_process_id : String
  message_id : String
  epoch_number : Int
  triggering_message_ids : List String
deriving DecidableEq

/-- Modelled from the spec: the collaborator equality compares the envelope
(base) fields of the two records. -/
def envelopeEq (a b : Envelope) : Bool := decide (a = b)

/-- Assoc-list lookup for a named series of a time series block. -/
def seriesLookup (name : String) : List (String × ValueArrayBlock) → Option ValueArrayBlock
  | [] => none
  | (n, va) :: rest => if n = name then some va else seriesLookup name rest

namespace RequestMessage

/-- Values accepted for direction. -/
def ALLOWED_DIRECTION_VALUES : List String := ["upregulation", "downregulation"]

/-- Translation of RequestMessage._check_direction. -/
def check_direction (v : PyVal) : Bool :=
  match v with
  | .vStr s => decide (s ∈ ALLOWED_DIRECTION_VALUES)
  | _ => false

/-- Translation of RequestMessage._check_customer_ids: rejects none, inputs
that are not a str, list or tuple, empty inputs, and sequences holding a
non-str element. -/
def check_customer_ids (v : PyVal) : Bool :=
  match v with
  | .vStr s => s.length != 0
  | .vList xs => xs.length != 0 && xs.all isEStr
  | .vTuple xs => xs.length != 0 && xs.all isEStr
  | _ => false

/-- Python list() applied to an accepted customer_ids input: a string becomes
the list of its one-character substrings, a list or tuple keeps its elements. -/
def pyListOfStr (v : PyVal) : List String :=
  match v with
  | .vStr s => s.data.map Char.toString
  | .vList xs => xs.map (fun e => match e with | .eStr s => s | _ => "")
  | .vTuple xs => xs.map (fun e => match e with | .eStr s => s | _ => "")
  | _ => []

/-- Translation of the customer_ids setter. On a failed check the source
builds a MessageValueError but has no raise statement, so the call returns
normally and the stored field keeps its previous value (none models a field
never set). The Bool result records whether the call returned normally (true)
rather than raising (false); it is true on every path. -/
def set_customer_ids (old : Option (List String)) (v : PyVal) :
    Option (List String) × Bool :=
  if check_customer_ids v then (some (pyListOfStr v), true)
  else (old, true)

/-- Translation of RequestMessage._check_congestion_id: any str is accepted. -/
def check_congestion_id (v : PyVal) : Bool := isVStr v

/-- Translation of RequestMessage._check_bid_resolution. -/
def check_bid_resolution (v : PyVal) : Bool :=
  match v with
  | .vNone => true
  | _ => check_quantity_block v "kW" true nonneg

/-- The fully constructed Request record: the declared fields of
RequestMessage next to the collaborator envelope. customer_ids is an Option
because the buggy setter can leave the attribute unset. -/
structure Record where
  envelope : Envelope
  activation_time : String
  duration : QuantityBlock
  direction : String
  real_power_min : QuantityBlock
  real_power_request : QuantityBlock
  customer_ids : Option (List String)
  congestion_id : String
  bid_resolution : Option QuantityBlock
deriving DecidableEq

/-- RequestMessage defines no equality of its own, so the inherited
collaborator equality applies: only envelope fields are compared. -/
def eqRec (a b : Record) : Bool := envelopeEq a.envelope b.envelope

/-- The JSON fields of a Request message; the envelope part is carried as an
already collaborator-validated record, optional BidResolution absent is
modelled as the none value. -/
structure Json where
  msg_type : String
  envelope : Envelope
  activation_time : PyVal
  duration : PyVal
  direction : PyVal
  real_power_min : PyVal
  real_power_request : PyVal
  customer_ids : PyVal
  congestion_id : PyVal
  bid_resolution : PyVal

/-- Construction of a RequestMessage from a JSON mapping: the discriminator is
checked, then every declared field is set through its setter and a raising
setter aborts construction. The customer_ids setter never raises, so an
invalid CustomerIds value leaves that field unset while construction
continues. -/
def construct (j : Json) : Except MessageError Record := do
  if j.msg_type ≠ "Request" then throw MessageError.typeError
  if ¬ check_datetime j.activation_time then throw MessageError.dateError
  if ¬ check_quantity_block j.duration "Minute" false nonneg then
    throw MessageError.valueError
  if ¬ check_direction j.direction then throw MessageError.valueError
  if ¬ check_quantity_block j.real_power_min "kW" false nonneg then
    throw MessageError.valueError
  if ¬ check_quantity_block j.real_power_request "kW" false nonneg then
    throw MessageError.valueError
  if ¬ check_congestion_id j.congestion_id then throw MessageError.valueError
  if ¬ check_bid_resolution j.bid_resolution then throw MessageError.valueError
  pure {
    envelope := j.envelope
    activation_time := pyStrVal j.activation_time
    duration := set_quantity_block_value "Minute" j.duration
    direction := pyStrVal j.direction
    real_power_min := set_quantity_block_value "kW" j.real_power_min
    real_power_request := set_quantity_block_value "kW" j.real_power_request
    customer_ids :=
      if check_customer_ids j.customer_ids then some (pyListOfStr j.customer_ids)
      else none
    congestion_id := pyStrVal j.congestion_id
    bid_resolution :=
      match j.bid_resolution with
      | .vNone => none
      | v => some (set_quantity_block_value "kW" v) }

/-- Modelled from the spec: the collaborator validate_json attempts a full
construction and converts any validation error into false (missing here:
tools.message.abstract validate_json). -/
def validate_json (j : Json) : Bool :=
  match construct j with
  | .ok _ => true
  | .error _ => false

/-- Translation of RequestMessage.from_json: construct when validate_json
passes, none otherwise. -/
def from_json (j : Json) : Option Record :=
  if validate_json j then
    match construct j with
    | .ok r => some r
    | .error _ => none
  else none

end RequestMessage

namespace OfferMessage

/-- Units accepted for price; a bare number defaults to the first one. -/
def ALLOWED_PRICE_UNITS : List String := ["{EUR}/(kW.h)", "{EUR}/(MW.h)"]

/-- Required unit of every RealPower series. -/
def REAL_POWER_UNIT : String := "kW"

/-- Translation of OfferMessage._check_real_power_block: at least one series,
at least one timestamp, and every series with the RealPower unit. -/
def check_real_power_block (b : TimeSeriesBlock) : Bool :=
  if b.series.length < 1 ∨ b.time_index.length < 1 then false
  else b.series.all (fun p => p.2.unit_of_measure == REAL_POWER_UNIT)

/-- Translation of OfferMessage._check_real_power for an already-built
block. -/
def check_real_power (b : TimeSeriesBlock) : Bool :=
  check_timeseries_block b check_real_power_block

/-- Translation of the real_power setter on an already-built block: store the
block when the check passes, raise MessageValueError otherwise. -/
def set_real_power (b : TimeSeriesBlock) : PyOutcome TimeSeriesBlock :=
  if check_real_power b then .ok b else .msgValueError

/-- Translation of OfferMessage._check_price: an explicit quantity must carry
one of the two allowed price units and a nonnegative value; any other input is
checked as a bare quantity against the default price unit. -/
def check_price (price : PyVal) : Bool :=
  match price with
  | .vQB value u =>
    if u ∉ ALLOWED_PRICE_UNITS then false
    else check_quantity_block (.vFloat value) u false nonneg
  | _ => check_quantity_block price (ALLOWED_PRICE_UNITS.headD "") false nonneg

/-- Translation of the price setter: an int input is first coerced to float;
after storing through the collaborator helper (which applies the default
declared unit), a quantity input additionally overwrites the stored unit with
its own. -/
def set_price (price : PyVal) : PyOutcome QuantityBlock :=
  let price := match price with
    | .vInt n => .vFloat (n : ℚ)
    | p => p
  if check_price price then
    let stored := set_quantity_block_value "{EUR}/(kW.h)" price
    match price with
    | .vQB _ u => .ok { stored with unit_of_measure := u }
    | _ => .ok stored
  else .msgValueError

/-- Translation of OfferMessage._check_offer_count. The source applies the
float builtin to a str input without catching errors, so a non-numeric string
makes the check itself raise a builtin ValueError (the error result); likewise
the int builtin on a numeric but non-integer-literal string. A Python bool
passes the isinstance int test because bool is an int subtype. -/
def check_offer_count (v : PyVal) : Except String Bool :=
  match v with
  | .vNone => .ok false
  | .vStr s =>
    match parseFloat s with
    | none => .error "builtin ValueError from float"
    | some q =>
      if q.den = 1 then
        match parseIntStr s with
        | none => .error "builtin ValueError from int"
        | some n => .ok (decide (0 ≤ n))
      else .ok false
  | .vBool _ => .ok true
  | .vInt n => .ok (decide (0 ≤ n))
  | .vFloat q => .ok (decide (q.den = 1 ∧ 0 ≤ q))
  | _ => .ok false

/-- Translation of the offer_count setter: store the int coercion when the
check passes; when the check returns false the raise statement formats the
message with a string format code applied directly to the raw value, which
itself raises a builtin error unless the value is a str. -/
def set_offer_count (v : PyVal) : PyOutcome Int :=
  match check_offer_count v with
  | .error e => .builtinError e
  | .ok true => .ok (pyInt v)
  | .ok false =>
    match v with
    | .vStr _ => .msgValueError
    | _ => .builtinError "builtin error from str.format on a non-str value"

/-- The fully constructed Offer record: the declared fields of OfferMessage
next to the collaborator envelope. -/
structure Record where
  envelope : Envelope
  activation_time : String
  duration : QuantityBlock
  direction : String
  real_power : TimeSeriesBlock
  price : QuantityBlock
  congestion_id : String
  offer_id : String
  offer_count : Int
deriving DecidableEq

/-- OfferMessage defines no equality of its own, so the inherited collaborator
equality applies: only envelope fields are compared. -/
def eqRec (a b : Record) : Bool := envelopeEq a.envelope b.envelope

end OfferMessage

namespace ResourceForecastPowerMessage

/-- The only required series name of the forecast block. -/
def REAL_POWER_SERIES_NAMES : List String := ["RealPower"]

/-- Required unit of the forecast series. -/
def REAL_POWER_SERIES_UNIT : String := "kW"

/-- Translation of ResourceForecastPowerMessage._check_resource_name: any str
is accepted. -/
def check_resource_name (v : PyVal) : Bool := isVStr v

/-- Translation of the resource_name setter; the Bool result records whether
the call returned normally (true) rather than raising MessageValueError
(false). -/
def set_resource_name (old : Option String) (v : PyVal) : Option String × Bool :=
  if check_resource_name v then (some (pyStrVal v), true)
  else (old, false)

/-- Translation of ResourceForecastPowerMessage._check_real_power_block with
the loop over REAL_POWER_SERIES_NAMES = ["RealPower"] unrolled to its single
iteration: exactly one series, at least three timestamps, a series named
RealPower with unit kW and at least three values. -/
def check_real_power_block (b : TimeSeriesBlock) : Bool :=
  if b.series.length ≠ 1 ∨ b.time_index.length < 3 then false
  else
    match seriesLookup "RealPower" b.series with
    | none => false
    | some cs =>
      if cs.unit_of_measure ≠ REAL_POWER_SERIES_UNIT ∨ cs.values.length < 3 then false
      else true

/-- Translation of the real_power (Forecast) setter on an already-built
block. -/
def set_forecast (b : TimeSeriesBlock) : PyOutcome TimeSeriesBlock :=
  if check_timeseries_block b check_real_power_block then .ok b else .msgValueError

/-- The fully constructed ResourceForecastPower record. -/
structure Record where
  envelope : Envelope
  resource_name : String
  real_power : TimeSeriesBlock
deriving DecidableEq

/-- Translation of ResourceForecastPowerMessage.__eq__: the collaborator
(envelope) equality, then resource_name and real_power compared field by
field; the isinstance test of the source is subsumed by the record type. -/
def eqRec (a b : Record) : Bool :=
  envelopeEq a.envelope b.envelope
    && decide (a.resource_name = b.resource_name)
    && decide (a.real_power = b.real_power)

end ResourceForecastPowerMessage

/-- Sample envelope shared by the equality and construction examples. -/
def sampleEnvelope : Envelope := ⟨"sim1", "src1", "msg1", 1, ["m0"]⟩

/-- Sample forecast block: three timestamps, one RealPower series in kW. -/
def sampleBlock : TimeSeriesBlock :=
  ⟨["t1", "t2", "t3"], [("RealPower", ⟨[1, 2, 3], "kW"⟩)]⟩

/-- Sample Offer record. -/
def sampleOfferA : OfferMessage.Record :=
  { envelope := sampleEnvelope
    activation_time := "2020-01-01T00:00:00Z"
    duration := ⟨60, "Minute"⟩
    direction := "upregulation"
    real_power := sampleBlock
    price := ⟨2, "{EUR}/(kW.h)"⟩
    congestion_id := "cong1"
    offer_id := "offer1"
    offer_count := 1 }

/-- Sample Offer record sharing the envelope of sampleOfferA but with a
different offer id and price. -/
def sampleOfferB : OfferMessage.Record :=
  { sampleOfferA with offer_id := "offer2", price := ⟨3, "{EUR}/(kW.h)"⟩ }

/-- Sample Request JSON mapping that is valid except for an empty CustomerIds
list. -/
def sampleBadCustomersJson : RequestMessage.Json :=
  { msg_type := "Request"
    envelope := sampleEnvelope
    activation_time := .vStr "2020-01-01T00:00:00Z"
    duration := .vFloat 60
    direction := .vStr "upregulation"
    real_power_min := .vFloat 1
    real_power_request := .vFloat 2
    customer_ids := .vList []
    congestion_id := .vStr "cong1"
    bid_resolution := .vNone }

/-- Claim C1: the claim says every invalid CustomerIds input (none, the empty
string, an empty list, a list holding a non-string element) makes the setter
raise a value error while the stored value stays unchanged. The code leaves
the stored value unchanged but returns normally on all of them, because the
raise statement is missing from the setter. -/
theorem claim_C1_customer_ids_missing_raise :
    RequestMessage.set_customer_ids (some ["a"]) .vNone = (some ["a"], true) ∧
    RequestMessage.set_customer_ids (some ["a"]) (.vStr "") = (some ["a"], true) ∧
    RequestMessage.set_customer_ids (some ["a"]) (.vList []) = (some ["a"], true) ∧
    RequestMessage.set_customer_ids (some ["a"]) (.vList [.eInt 1]) = (some ["a"], true) ∧
    RequestMessage.check_customer_ids .vNone = false ∧
    RequestMessage.check_customer_ids (.vStr "") = false ∧
    RequestMessage.check_customer_ids (.vList []) = false ∧
    RequestMessage.check_customer_ids (.vList [.eInt 1]) = false := by decide

/-- Claim C2: the claim says a single customer id string s is stored as the
one-element list holding s. The code applies the list builtin to the string,
which stores the list of its one-character substrings instead. -/
theorem claim_C2_string_customer_id_splits :
    RequestMessage.set_customer_ids none (.vStr "c1") = (some ["c", "1"], true) ∧
    ["c", "1"] ≠ ["c1"] := by decide

/-- Claim C3 counterexample: two Offer records sharing an envelope but
differing in OfferId and Price still compare equal, because OfferMessage does
not override the collaborator equality; the claim requires them to be
unequal. -/
theorem claim_C3_counterexample_offer_equality :
    OfferMessage.eqRec sampleOfferA sampleOfferB = true ∧
    sampleOfferA.offer_id ≠ sampleOfferB.offer_id ∧
    sampleOfferA.price ≠ sampleOfferB.price := by decide

/-- Claim C3 amended: ResourceForecastPowerMessage equality holds exactly when
the envelope fields (collaborator equality) and its declared fields agree,
while OfferMessage and RequestMessage define no equality of their own, so
their records compare by the collaborator envelope equality alone and ignore
the declared fields. -/
theorem claim_C3_equality_by_type :
    (∀ a b : ResourceForecastPowerMessage.Record,
      ResourceForecastPowerMessage.eqRec a b = true ↔
        (envelopeEq a.envelope b.envelope = true ∧
         a.resource_name = b.resource_name ∧ a.real_power = b.real_power)) ∧
    (∀ a b : OfferMessage.Record,
      OfferMessage.eqRec a b = envelopeEq a.envelope b.envelope) ∧
    (∀ a b : RequestMessage.Record,
      RequestMessage.eqRec a b = envelopeEq a.envelope b.envelope) := by
  refine ⟨fun a b => ?_, fun a b => rfl, fun a b => rfl⟩
  simp [ResourceForecastPowerMessage.eqRec, Bool.and_eq_true, decide_eq_true_eq,
    and_assoc]

/-- Claim C4: the claim says from_json returns a fully validated record or
none. With an empty CustomerIds list the customer_ids setter fails to raise,
validation passes, and from_json returns a record whose required customer_ids
field was never assigned (modelled as none). -/
theorem claim_C4_from_json_half_built :
    ∃ r, RequestMessage.from_json sampleBadCustomersJson = some r ∧
      r.customer_ids = none := by
  exact ⟨_, rfl, rfl⟩

/-- Claim C5 counterexample: the claim says the empty string is rejected by
the resource_name setter with a value error; the code accepts any string, so
the empty string is stored and the setter returns normally. -/
theorem claim_C5_counterexample_empty_name :
    ResourceForecastPowerMessage.set_resource_name none (.vStr "") = (some "", true) ∧
    ResourceForecastPowerMessage.check_resource_name (.vStr "") = true := by decide

/-- Claim C5 amended: the resource_name setter accepts exactly the strings:
every string, the empty one included, is stored as given, and every non-string
input raises a value error leaving the field unchanged. -/
theorem claim_C5_resource_name_any_string (old : Option String) (v : PyVal) :
    (∀ s, v = .vStr s →
      ResourceForecastPowerMessage.set_resource_name old v = (some s, true)) ∧
    (isVStr v = false →
      ResourceForecastPowerMessage.set_resource_name old v = (old, false)) := by
  constructor
  · rintro s rfl
    rfl
  · intro h
    simp [ResourceForecastPowerMessage.set_resource_name,
      ResourceForecastPowerMessage.check_resource_name, h]

/-- Claim C5 witness: the amended statement applied to a nonempty string and
to an integer input. -/
theorem claim_C5_witness :
    ResourceForecastPowerMessage.set_resource_name none (.vStr "x") = (some "x", true) ∧
    ResourceForecastPowerMessage.set_resource_name none (.vInt 0) = (none, false) :=
  ⟨(claim_C5_resource_name_any_string none (.vStr "x")).1 "x" rfl,
   (claim_C5_resource_name_any_string none (.vInt 0)).2 rfl⟩

/-- Claim C6: the claim says a non-numeric OfferCount string makes the setter
raise a message value error, the check being total and returning false on
such input. In the code the unguarded float builtin raises a builtin
ValueError inside the check, and that error escapes the setter. -/
theorem claim_C6_offer_count_builtin_error :
    OfferMessage.check_offer_count (.vStr "abc") =
      Except.error "builtin ValueError from float" ∧
    OfferMessage.set_offer_count (.vStr "abc") =
      PyOutcome.builtinError "builtin ValueError from float" := ⟨rfl, rfl⟩

/-- Claim C7: setting Price from the bare number 2.0 stores a quantity with
the default unit and value 2.0; setting it afterwards from an explicit
quantity with the alternative allowed unit and value 2.0 succeeds and the
stored unit becomes that unit; a quantity with a unit outside the two allowed
ones, or with a negative value, is rejected with a value error. -/
theorem claim_C7_price_units :
    OfferMessage.set_price (.vFloat 2) = .ok ⟨2, "{EUR}/(kW.h)"⟩ ∧
    OfferMessage.set_price (.vQB 2 "{EUR}/(MW.h)") = .ok ⟨2, "{EUR}/(MW.h)"⟩ ∧
    (∀ value u, u ∉ OfferMessage.ALLOWED_PRICE_UNITS →
      OfferMessage.set_price (.vQB value u) = .msgValueError) ∧
    (∀ value u, value < 0 →
      OfferMessage.set_price (.vQB value u) = .msgValueError) ∧
    (∀ q : ℚ, q < 0 → OfferMessage.set_price (.vFloat q) = .msgValueError) := by
  refine ⟨by decide, by decide, ?_, ?_, ?_⟩
  · intro value u h
    have hc : OfferMessage.check_price (.vQB value u) = false := by
      simp [OfferMessage.check_price, h]
    simp [OfferMessage.set_price, hc]
  · intro value u h
    have hn : nonneg value = false := by
      simp only [nonneg, decide_eq_false_iff_not, not_le]
      exact h
    have hc : OfferMessage.check_price (.vQB value u) = false := by
      simp only [OfferMessage.check_price, check_quantity_block, hn,
        Bool.and_false, ite_self]
    simp [OfferMessage.set_price, hc]
  · intro q h
    have hn : nonneg q = false := by
      simp only [nonneg, decide_eq_false_iff_not, not_le]
      exact h
    have hc : OfferMessage.check_price (.vFloat q) = false := by
      simp only [OfferMessage.check_price, check_quantity_block, hn]
    simp [OfferMessage.set_price, hc]

/-- Claim C7 witness: the universal parts of the price theorem applied to a
disallowed unit and to negative values. -/
theorem claim_C7_witness :
    OfferMessage.set_price (.vQB 2 "EUR") = .msgValueError ∧
    OfferMessage.set_price (.vQB (-1) "{EUR}/(MW.h)") = .msgValueError ∧
    OfferMessage.set_price (.vFloat (-1)) = .msgValueError :=
  ⟨claim_C7_price_units.2.2.1 2 "EUR" (by decide),
   claim_C7_price_units.2.2.2.1 (-1) "{EUR}/(MW.h)" (by decide),
   claim_C7_price_units.2.2.2.2 (-1) (by decide)⟩

/-- Claim C8: the ResourceForecastPower forecast block check succeeds exactly
when there is one series, at least three timestamps, and the series is named
RealPower with unit kW and at least three values; so it fails for fewer than
three timestamps, a series count other than one, a wrong name, a wrong unit or
fewer than three values, and it succeeds on a three-timestamp block with a
correct series, as on the concrete sample. -/
theorem claim_C8_forecast_block_check :
    (∀ b : TimeSeriesBlock,
      ResourceForecastPowerMessage.check_real_power_block b = true ↔
        (b.series.length = 1 ∧ 3 ≤ b.time_index.length ∧
         ∃ cs, seriesLookup "RealPower" b.series = some cs ∧
           cs.unit_of_measure = "kW" ∧ 3 ≤ cs.values.length)) ∧
    ResourceForecastPowerMessage.check_real_power_block
      ⟨["t1", "t2", "t3"], [("RealPower", ⟨[1, 2, 3], "kW"⟩)]⟩ = true := by
  refine ⟨fun b => ?_, by decide⟩
  unfold ResourceForecastPowerMessage.check_real_power_block
  split_ifs with h1
  · simp only [Bool.false_eq_true, false_iff]
    rintro ⟨hl, ht, -⟩
    rcases h1 with h | h
    · exact h hl
    · omega
  · push_neg at h1
    obtain ⟨hl, ht⟩ := h1
    cases hlk : seriesLookup "RealPower" b.series with
    | none => simp [hl, ht, hlk]
    | some cs =>
      simp only [ResourceForecastPowerMessage.REAL_POWER_SERIES_UNIT]
      split_ifs with h2
      · simp only [Bool.false_eq_true, false_iff]
        rintro ⟨-, -, cs2, hcs2, hu, hv⟩
        obtain rfl : cs = cs2 := by injection hcs2
        rcases h2 with h | h
        · exact h hu
        · omega
      · push_neg at h2
        simp [hl, ht, hlk, h2.1, h2.2]

/-- Claim C9: the Offer RealPower block check accepts a block exactly when it
has at least one timestamp, at least one series, and every series unit equals
kW; and a block failing the check is rejected by the setter with a value
error. -/
theorem claim_C9_offer_real_power_check :
    (∀ b : TimeSeriesBlock,
      OfferMessage.check_real_power_block b = true ↔
        (1 ≤ b.series.length ∧ 1 ≤ b.time_index.length ∧
         ∀ p ∈ b.series, p.2.unit_of_measure = "kW")) ∧
    (∀ b : TimeSeriesBlock,
      OfferMessage.check_real_power_block b = false →
        OfferMessage.set_real_power b = PyOutcome.msgValueError) := by
  constructor
  · intro b
    unfold OfferMessage.check_real_power_block
    split_ifs with h1
    · simp only [Bool.false_eq_true, false_iff]
      rintro ⟨hs, ht, -⟩
      rcases h1 with h | h <;> omega
    · push_neg at h1
      simp [List.all_eq_true, OfferMessage.REAL_POWER_UNIT, h1.1, h1.2,
        Nat.one_le_iff_ne_zero]
  · intro b h
    simp [OfferMessage.set_real_power, OfferMessage.check_real_power,
      check_timeseries_block, h]

/-- Claim C9 witness: the rejection part of the RealPower theorem applied to
the empty block, which fails the check. -/
theorem claim_C9_witness :
    OfferMessage.set_real_power ⟨[], []⟩ = PyOutcome.msgValueError :=
  claim_C9_offer_real_power_check.2 ⟨[], []⟩ (by decide)

/-- Claim C10: Python booleans pass the integer branch of the offer count
check because bool is an int subtype, so setting OfferCount to True stores 1
and setting it to False stores 0, with no error raised. -/
theorem claim_C10_offer_count_accepts_bool :
    OfferMessage.check_offer_count (.vBool true) = .ok true ∧
    OfferMessage.check_offer_count (.vBool false) = .ok true ∧
    OfferMessage.set_offer_count (.vBool true) = .ok 1 ∧
    OfferMessage.set_offer_count (.vBool false) = .ok 0 := ⟨rfl, rfl, rfl, rfl⟩

end DomainMessages
